import Mathlib

/-!
# Verification of the JoyCaption adapter (`src/xinfer/transformers/joycaption.py`)

A shallow embedding of the adapter's pure orchestration logic: the
image-token expansion loop, batched padding and attention-mask
construction, dtype validation at construction time, generation-option
resolution, prompt trimming of generation output, stats counting, and
the model registry.  Tensors of token ids are embedded as `List Nat`;
the tokenizer and the generation model are external collaborators and
appear as function parameters.
-/

namespace XInfer

/-- A token id, as produced by the tokenizer (`torch.long` entries). -/
abbrev Token := Nat

/-! ## Image-token expansion (`JoyCaption.preprocess`, lines 68–76,
and the identical loop in `preprocess_batch`, lines 142–150)

The Python loop builds `input_tokens` by appending, for each token of
`convo_tokens`, either `image_seq_length` copies of
`image_token_index` (when the token is the placeholder) or the token
itself. -/

/-- One iteration of the expansion loop body: appends to the
accumulator either `imageSeqLength` copies of the placeholder or the
single token. -/
def expandStep (imageTokenIndex : Token) (imageSeqLength : Nat)
    (inputTokens : List Token) (token : Token) : List Token :=
  if token = imageTokenIndex then
    inputTokens ++ List.replicate imageSeqLength imageTokenIndex
  else
    inputTokens ++ [token]

/-- The whole expansion loop: fold `expandStep` over the conversation
tokens starting from the empty `input_tokens` list. -/
def expandImageTokens (imageTokenIndex : Token) (imageSeqLength : Nat)
    (convoTokens : List Token) : List Token :=
  convoTokens.foldl (expandStep imageTokenIndex imageSeqLength) []

/-- The loop accumulator only ever grows on the right, so the fold
distributes over the initial accumulator. -/
theorem foldl_expandStep_append (pid N : Nat) (l : List Token) :
    ∀ acc : List Token,
      l.foldl (expandStep pid N) acc = acc ++ l.foldl (expandStep pid N) [] := by
  induction l with
  | nil => intro acc; simp
  | cons t ts ih =>
      intro acc
      simp only [List.foldl_cons]
      rw [ih (expandStep pid N acc t), ih (expandStep pid N [] t)]
      unfold expandStep
      by_cases h : t = pid <;> simp [h]

/-- Unfolding the expansion loop one conversation token at a time. -/
theorem expandImageTokens_cons (pid N : Nat) (t : Token) (ts : List Token) :
    expandImageTokens pid N (t :: ts) =
      (if t = pid then List.replicate N pid else [t]) ++ expandImageTokens pid N ts := by
  unfold expandImageTokens
  simp only [List.foldl_cons]
  rw [foldl_expandStep_append]
  unfold expandStep
  by_cases h : t = pid <;> simp [h]

/-- The expansion loop is exactly the in-place substitution of each
placeholder occurrence by `N` copies. -/
theorem expandImageTokens_eq_bind (pid N : Nat) (l : List Token) :
    expandImageTokens pid N l =
      l.flatMap (fun t => if t = pid then List.replicate N pid else [t]) := by
  induction l with
  | nil => rfl
  | cons t ts ih => rw [expandImageTokens_cons, List.flatMap_cons, ih]

/-- Length accounting for the expansion loop: each of the `k`
placeholder occurrences contributes `N` tokens, every other token
contributes one. -/
theorem expandImageTokens_length (pid N : Nat) (hN : 1 ≤ N) (l : List Token) :
    (expandImageTokens pid N l).length = l.length + l.count pid * (N - 1) := by
  induction l with
  | nil => simp [expandImageTokens]
  | cons t ts ih =>
      rw [expandImageTokens_cons, List.length_append, ih]
      by_cases h : t = pid
      · subst h
        rw [if_pos rfl, List.length_replicate, List.count_cons_self,
          List.length_cons, Nat.succ_mul]
        omega
      · rw [if_neg h, List.count_cons_of_ne (Ne.symm h)]
        simp only [List.length_cons, List.length_nil]
        omega

/-- The expansion loop leaves the subsequence of non-placeholder
tokens unchanged. -/
theorem expandImageTokens_filter (pid N : Nat) (l : List Token) :
    (expandImageTokens pid N l).filter (fun t => t ≠ pid) =
      l.filter (fun t => t ≠ pid) := by
  induction l with
  | nil => rfl
  | cons t ts ih =>
      rw [expandImageTokens_cons, List.filter_append, ih, List.filter_cons]
      by_cases h : t = pid
      · simp [h, List.filter_replicate]
      · simp [h]

/-- The expansion loop turns `k` placeholder occurrences into `k * N`
placeholder occurrences. -/
theorem expandImageTokens_count (pid N : Nat) (l : List Token) :
    (expandImageTokens pid N l).count pid = l.count pid * N := by
  induction l with
  | nil => simp [expandImageTokens]
  | cons t ts ih =>
      rw [expandImageTokens_cons, List.count_append, ih]
      by_cases h : t = pid
      · subst h
        rw [if_pos rfl, List.count_replicate_self, List.count_cons_self,
          Nat.succ_mul]
        omega
      · rw [if_neg h, List.count_cons_of_ne (Ne.symm h),
          List.count_cons_of_ne (Ne.symm h), List.count_nil, Nat.zero_add]

/-! ## Batched padding (`JoyCaption.preprocess_batch`, lines 155–168)

`max_length = max(ids.size(0) for ids in input_ids_list)` followed by
a zero tensor of shape `(len(input_ids_list), max_length)` whose row
`i` has its first `ids.size(0)` entries overwritten with example
`i`'s ids, and a ones mask whose tail from `ids.size(0)` is zeroed. -/

/-- A Python runtime error surfaced by the adapter code itself. -/
inductive PyError
  | valueError (msg : String)
deriving DecidableEq

/-- Python's `max` over a sequence of numbers: raises `ValueError`
when the sequence is empty, otherwise folds binary maximum. -/
def pythonMax : List Nat → Except PyError Nat
  | [] => Except.error (PyError.valueError "max() arg is an empty sequence")
  | x :: xs => Except.ok (xs.foldl Nat.max x)

/-- Row of `padded_input_ids`: `maxLength` zeros whose first
`ids.length` entries are overwritten with `ids`. -/
def padRow (maxLength : Nat) (ids : List Token) : List Token :=
  (List.range maxLength).map (fun j => if j < ids.length then ids.getD j 0 else 0)

/-- Row of the attention mask: `torch.ones(max_length)` with the tail
from position `len` overwritten by zeros. -/
def maskRow (maxLength len : Nat) : List Nat :=
  (List.range maxLength).map (fun j => if j < len then 1 else 0)

/-- The padding phase of `preprocess_batch`: computes the batch
maximum length and builds the padded id rows and mask rows. -/
def padBatch (inputIdsList : List (List Token)) :
    Except PyError (List (List Token) × List (List Nat)) :=
  match pythonMax (inputIdsList.map List.length) with
  | Except.error e => Except.error e
  | Except.ok maxLength =>
      Except.ok (inputIdsList.map (padRow maxLength),
        inputIdsList.map (fun ids => maskRow maxLength ids.length))

/-- A zero-padded row is the original row followed by filler zeros. -/
theorem padRow_eq_append (m : Nat) (ids : List Token) (h : ids.length ≤ m) :
    padRow m ids = ids ++ List.replicate (m - ids.length) 0 := by
  apply List.ext_getElem
  · simp [padRow]; omega
  · intro i h1 h2
    simp only [padRow, List.getElem_map, List.getElem_range]
    by_cases hi : i < ids.length
    · rw [if_pos hi, List.getElem_append_left hi, List.getD_eq_getElem ids 0 hi]
    · rw [if_neg hi, List.getElem_append_right (Nat.le_of_not_lt hi),
        List.getElem_replicate]

/-- A mask row is `len` ones followed by zeros. -/
theorem maskRow_eq_append (m len : Nat) (h : len ≤ m) :
    maskRow m len = List.replicate len 1 ++ List.replicate (m - len) 0 := by
  apply List.ext_getElem
  · simp [maskRow]; omega
  · intro i h1 h2
    simp only [maskRow, List.getElem_map, List.getElem_range]
    by_cases hi : i < len
    · rw [if_pos hi,
        List.getElem_append_left (by simpa using hi), List.getElem_replicate]
    · rw [if_neg hi,
        List.getElem_append_right (by simpa using Nat.le_of_not_lt hi),
        List.getElem_replicate]

/-- Every element bounds from below the left fold of `Nat.max`. -/
theorem le_foldl_max (xs : List Nat) :
    ∀ x : Nat, x ≤ xs.foldl Nat.max x ∧ ∀ y ∈ xs, y ≤ xs.foldl Nat.max x := by
  induction xs with
  | nil => intro x; exact ⟨Nat.le_refl x, by intro y hy; cases hy⟩
  | cons z zs ih =>
      intro x
      have hrec := ih (Nat.max x z)
      refine ⟨Nat.le_trans (Nat.le_max_left x z) hrec.1, ?_⟩
      intro y hy
      rcases List.mem_cons.mp hy with hz | hzs
      · subst hz; exact Nat.le_trans (Nat.le_max_right x y) hrec.1
      · exact hrec.2 y hzs

/-- The left fold of `Nat.max` is the seed or one of the elements. -/
theorem foldl_max_mem (xs : List Nat) :
    ∀ x : Nat, xs.foldl Nat.max x = x ∨ xs.foldl Nat.max x ∈ xs := by
  induction xs with
  | nil => intro x; exact Or.inl rfl
  | cons z zs ih =>
      intro x
      rcases ih (Nat.max x z) with h | h
      · rw [List.foldl_cons, h]
        rcases Nat.le_total x z with hle | hle
        · refine Or.inr ?_
          have hmz : Nat.max x z = z := Nat.max_eq_right hle
          rw [hmz]
          exact List.mem_cons_self z zs
        · exact Or.inl (Nat.max_eq_left hle)
      · exact Or.inr (List.mem_cons_of_mem z (by rw [List.foldl_cons]; exact h))

/-- On a non-empty list `pythonMax` succeeds and returns the maximum:
an upper bound of all elements that is itself an element. -/
theorem pythonMax_spec (l : List Nat) (h : l ≠ []) :
    ∃ M, pythonMax l = Except.ok M ∧ (∀ y ∈ l, y ≤ M) ∧ M ∈ l := by
  match l, h with
  | x :: xs, _ =>
      refine ⟨xs.foldl Nat.max x, rfl, ?_, ?_⟩
      · intro y hy
        rcases List.mem_cons.mp hy with hx | hxs
        · subst hx; exact (le_foldl_max xs y).1
        · exact (le_foldl_max xs x).2 y hxs
      · rcases foldl_max_mem xs x with h1 | h1
        · rw [h1]; exact List.mem_cons_self x xs
        · exact List.mem_cons_of_mem x h1

/-! ## Construction-time dtype validation (`JoyCaption.__init__`,
lines 16–27) -/

/-- The three torch dtypes the adapter accepts. -/
inductive TorchDType
  | float32
  | float16
  | bfloat16
deriving DecidableEq

/-- The `dtype_map` dictionary lookup of `__init__`. -/
def dtype_map (dtype : String) : Option TorchDType :=
  if dtype = "float32" then some TorchDType.float32
  else if dtype = "float16" then some TorchDType.float16
  else if dtype = "bfloat16" then some TorchDType.bfloat16
  else none

/-- Errors of the adapter layer, named after the spec's taxonomy:
`InvalidConfigError` for a rejected configuration value (raised as a
`ValueError` in the code), `NotFoundError` for a failed registry
lookup. -/
inductive XError
  | invalidConfig (msg : String)
  | notFound (identifier : String)
deriving DecidableEq

/-- Observable resource state: how often `load_model` ran and how
many expensive resources (tokenizer, weights) were acquired. -/
structure World where
  loadModelCalls : Nat
  resourcesAllocated : Nat
deriving DecidableEq

/-- `JoyCaption.load_model` (lines 29–34): acquires the tokenizer and
the model weights. -/
def load_model (w : World) : World :=
  { loadModelCalls := w.loadModelCalls + 1,
    resourcesAllocated := w.resourcesAllocated + 2 }

/-- `JoyCaption.__init__` (lines 16–27): validates `dtype` against
`dtype_map` and raises before calling `load_model` when the lookup
fails; otherwise stores the mapped dtype and calls `load_model`. -/
def joyCaptionInit (dtype : String) (w : World) :
    Except XError TorchDType × World :=
  match dtype_map dtype with
  | none =>
      (Except.error (XError.invalidConfig
        "dtype must be one of 'float32', 'float16', or 'bfloat16'"), w)
  | some d => (Except.ok d, load_model w)

/-! ## Generation options (`infer` lines 90–101, `infer_batch` lines
179–190) -/

/-- The caller-supplied `generate_kwargs`, restricted to the one key
the adapter inspects. -/
structure GenerateKwargs where
  maxNewTokens : Option Nat
deriving DecidableEq

/-- The keyword arguments the adapter passes to `model.generate`. -/
structure GenerateCall where
  maxNewTokens : Option Nat
  doSample : Bool
  suppressTokens : Option (List Token)
  useCache : Bool
deriving DecidableEq

/-- `if "max_new_tokens" not in generate_kwargs:
generate_kwargs["max_new_tokens"] = 300`. -/
def applyDefaultMaxNewTokens (kw : GenerateKwargs) : GenerateKwargs :=
  match kw.maxNewTokens with
  | none => { kw with maxNewTokens := some 300 }
  | some _ => kw

/-- The options `infer` forwards to `model.generate` (lines 93–101). -/
def inferGenerateCall (kw : GenerateKwargs) : GenerateCall :=
  let kw := applyDefaultMaxNewTokens kw
  { maxNewTokens := kw.maxNewTokens, doSample := true,
    suppressTokens := none, useCache := true }

/-- The options `infer_batch` forwards to `model.generate`
(lines 182–190). -/
def inferBatchGenerateCall (kw : GenerateKwargs) : GenerateCall :=
  let kw := applyDefaultMaxNewTokens kw
  { maxNewTokens := kw.maxNewTokens, doSample := true,
    suppressTokens := none, useCache := true }

/-! ## Decoding, trimming and stats (`infer` lines 83–115,
`infer_batch` lines 170–207) -/

/-- The tokenizer's `decode(..., skip_special_tokens=True,
clean_up_tokenization_spaces=False)` collaborator, abstracted as a
per-token rendering concatenated in order. -/
def decodeTokens (render : Token → String) (ids : List Token) : String :=
  String.join (ids.map render)

/-- Python's `str.strip()`: removes leading and trailing whitespace. -/
def pyStrip (s : String) : String :=
  String.mk
    (((s.data.dropWhile Char.isWhitespace).reverse.dropWhile
      Char.isWhitespace).reverse)

/-- Modelled from the spec: the `Stats` collaborator (class in
`xinfer.models`, not under `src/`) holds a running inference count
read by external monitoring. -/
structure Stats where
  inferenceCount : Nat
deriving DecidableEq

/-- Modelled from the spec: `Stats.update_inference_count`, the
counter-increment call taking the number of completed inferences. -/
def update_inference_count (s : Stats) (n : Nat) : Stats :=
  { inferenceCount := s.inferenceCount + n }

/-- The token phase of `preprocess` (lines 62–81): token expansion
followed by `attention_mask = torch.ones_like(input_ids)`. -/
def preprocessTokens (pid N : Nat) (convoTokens : List Token) :
    List Token × List Nat :=
  let inputTokens := expandImageTokens pid N convoTokens
  (inputTokens, List.replicate inputTokens.length 1)

/-- One `infer` call (lines 83–115).  The preprocessing outcome and
the generation collaborator are parameters; each may raise, in which
case the exception propagates and the stats counter — updated last,
after decode — is left untouched.  On success the generated row is
trimmed by the prompt length `input_ids.shape[1]`, decoded and
stripped, and the counter grows by 1. -/
def runInfer (render : Token → String) (stats : Stats)
    (preResult : Except PyError (List Token))
    (generate : List Token → Except PyError (List Token)) :
    Except PyError String × Stats :=
  match preResult with
  | Except.error e => (Except.error e, stats)
  | Except.ok inputIds =>
      match generate inputIds with
      | Except.error e => (Except.error e, stats)
      | Except.ok generateIds =>
          let trimmed := generateIds.drop inputIds.length
          let caption := pyStrip (decodeTokens render trimmed)
          (Except.ok caption, update_inference_count stats 1)

/-- `input_ids.shape[1]`: the column count of a padded matrix, i.e.
the shared length of its rows (`0` for an empty matrix). -/
def matrixWidth (rows : List (List Token)) : Nat :=
  (rows.map List.length).headD 0

/-- One `infer_batch` call (lines 170–207).  `encode` maps a caller
prompt to the rendered conversation's tokens (chat-template and
tokenizer collaborators); `generate` maps the padded id matrix and
mask matrix to the generated rows and may raise.  The images and
prompts are paired with `zip`, each pair preprocessed and expanded,
the id rows padded, generation run once, every generated row trimmed
by the shared padded width `input_ids.shape[1]`, decoded and
stripped; last the counter grows by `len(images)` — the number of
stacked image tensors, i.e. the number of zipped pairs. -/
def runInferBatch (render : Token → String) (encode : String → List Token)
    (pid N : Nat)
    (generate : List (List Token) → List (List Nat) →
      Except PyError (List (List Token)))
    (stats : Stats) (images prompts : List String) :
    Except PyError (List String) × Stats :=
  let pairs := images.zip prompts
  let inputIdsList := pairs.map (fun pr => expandImageTokens pid N (encode pr.2))
  match padBatch inputIdsList with
  | Except.error e => (Except.error e, stats)
  | Except.ok (paddedInputIds, attentionMasks) =>
      match generate paddedInputIds attentionMasks with
      | Except.error e => (Except.error e, stats)
      | Except.ok generateIds =>
          let width := matrixWidth paddedInputIds
          let captions := generateIds.map
            (fun row => pyStrip (decodeTokens render (row.drop width)))
          (Except.ok captions, update_inference_count stats pairs.length)

/-! ## Registry (`register_model` applied at lines 10–14)

The registry itself lives in `xinfer.model_registry`, outside this
file's source; it is modelled from the spec. -/

/-- Modelled from the spec: `ModelInputOutput` (module
`xinfer.model_registry`, not under `src/`), the fixed enumeration of
input/output modalities an adapter supports. -/
inductive ModelInputOutput
  | imageTextToText
  | textToText
deriving DecidableEq

/-- Modelled from the spec: a `RegistryEntry` — identifier, backend
kind, capability and the registered constructor. -/
structure RegistryEntry (C : Type) where
  identifier : String
  backendKind : String
  capability : ModelInputOutput
  ctor : C

/-- The process-wide registry: a collection of entries. -/
abbrev Registry (C : Type) := List (RegistryEntry C)

/-- Modelled from the spec: `register_model(identifier, backend,
capability)` applied to an adapter class inserts a `RegistryEntry`
and returns the class unchanged. -/
def register_model {C : Type} (identifier backendKind : String)
    (capability : ModelInputOutput) (cls : C) (reg : Registry C) :
    C × Registry C :=
  (cls,
   { identifier := identifier, backendKind := backendKind,
     capability := capability, ctor := cls } :: reg)

/-- Modelled from the spec: `resolve(identifier)` yields the
registered constructor, failing with `NotFoundError` when the
identifier is absent. -/
def resolve {C : Type} (reg : Registry C) (identifier : String) :
    Except XError C :=
  match reg.find? (fun e => e.identifier == identifier) with
  | some e => Except.ok e.ctor
  | none => Except.error (XError.notFound identifier)

/-- When the batch maximum is `M`, the padding phase succeeds with
the mapped pad and mask rows. -/
theorem padBatch_ok (inputIdsList : List (List Token)) (M : Nat)
    (hM : pythonMax (inputIdsList.map List.length) = Except.ok M) :
    padBatch inputIdsList =
      Except.ok (inputIdsList.map (padRow M),
        inputIdsList.map (fun ids => maskRow M ids.length)) := by
  unfold padBatch
  rw [hM]

/-- The column count of a non-empty padded matrix is the padding
width. -/
theorem matrixWidth_map_padRow (M : Nat) (l : List (List Token)) (h : l ≠ []) :
    matrixWidth (l.map (padRow M)) = M := by
  match l, h with
  | a :: t, _ => simp [matrixWidth, padRow]

/-- Evaluation of `runInferBatch` on the success path, in terms of
the batch maximum `M` and the generation result `rows`. -/
theorem runInferBatch_eq_of_ok (render : Token → String)
    (encode : String → List Token) (pid N : Nat)
    (generate : List (List Token) → List (List Nat) →
      Except PyError (List (List Token)))
    (stats : Stats) (images prompts : List String) (M : Nat)
    (rows : List (List Token))
    (hM : pythonMax
      (((images.zip prompts).map
        (fun pr => expandImageTokens pid N (encode pr.2))).map List.length) =
      Except.ok M)
    (hgen : generate
      (((images.zip prompts).map
        (fun pr => expandImageTokens pid N (encode pr.2))).map (padRow M))
      (((images.zip prompts).map
        (fun pr => expandImageTokens pid N (encode pr.2))).map
          (fun ids => maskRow M ids.length)) = Except.ok rows) :
    runInferBatch render encode pid N generate stats images prompts =
      (Except.ok (rows.map (fun row =>
        pyStrip (decodeTokens render (row.drop
          (matrixWidth (((images.zip prompts).map
            (fun pr => expandImageTokens pid N (encode pr.2))).map
              (padRow M))))))),
       update_inference_count stats (images.zip prompts).length) := by
  simp only [runInferBatch]
  simp only [padBatch_ok _ M hM, hgen]

/-! ## Claim theorems -/

/-- C2: for a non-empty batch the padding phase of
`preprocess_batch` succeeds with a padded matrix whose width is the
maximum `M` of the per-example lengths: row `i` holds example `i`'s
tokens followed by filler zeros, and mask row `i` has exactly `Li`
ones followed by zeros, in input order. -/
theorem c2_batched_padding (inputIdsList : List (List Token))
    (h : inputIdsList ≠ []) :
    ∃ M padded masks,
      padBatch inputIdsList = Except.ok (padded, masks) ∧
      M ∈ inputIdsList.map List.length ∧
      (∀ ids ∈ inputIdsList, ids.length ≤ M) ∧
      padded.length = inputIdsList.length ∧
      masks.length = inputIdsList.length ∧
      ∀ (i : Nat) (h1 : i < inputIdsList.length) (h2 : i < padded.length)
        (h3 : i < masks.length),
        padded[i] = inputIdsList[i] ++
          List.replicate (M - inputIdsList[i].length) 0 ∧
        padded[i].length = M ∧
        masks[i] = List.replicate inputIdsList[i].length 1 ++
          List.replicate (M - inputIdsList[i].length) 0 := by
  have hmap : inputIdsList.map List.length ≠ [] := by
    simpa using h
  obtain ⟨M, hM, hub, hmem⟩ := pythonMax_spec _ hmap
  refine ⟨M, inputIdsList.map (padRow M),
    inputIdsList.map (fun ids => maskRow M ids.length),
    padBatch_ok _ M hM, hmem, ?_, by simp, by simp, ?_⟩
  · intro ids hids
    exact hub _ (List.mem_map_of_mem _ hids)
  · intro i h1 h2 h3
    have hle : inputIdsList[i].length ≤ M :=
      hub _ (List.mem_map_of_mem _ (inputIdsList.getElem_mem h1))
    refine ⟨?_, ?_, ?_⟩
    · rw [List.getElem_map]
      exact padRow_eq_append M _ hle
    · simp [padRow]
    · rw [List.getElem_map]
      exact maskRow_eq_append M _ hle

/-- Witness for C2 on the batch `[[3], [4, 5]]`. -/
theorem c2_batched_padding_witness :
    ([[3], [4, 5]] : List (List Token)) ≠ [] ∧
    ∃ M padded masks,
      padBatch ([[3], [4, 5]] : List (List Token)) = Except.ok (padded, masks) ∧
      M ∈ ([[3], [4, 5]] : List (List Token)).map List.length ∧
      (∀ ids ∈ ([[3], [4, 5]] : List (List Token)), ids.length ≤ M) ∧
      padded.length = ([[3], [4, 5]] : List (List Token)).length ∧
      masks.length = ([[3], [4, 5]] : List (List Token)).length ∧
      ∀ (i : Nat) (h1 : i < ([[3], [4, 5]] : List (List Token)).length)
        (h2 : i < padded.length) (h3 : i < masks.length),
        padded[i] = ([[3], [4, 5]] : List (List Token))[i] ++
          List.replicate (M - ([[3], [4, 5]] : List (List Token))[i].length) 0 ∧
        padded[i].length = M ∧
        masks[i] = List.replicate ([[3], [4, 5]] : List (List Token))[i].length 1 ++
          List.replicate (M - ([[3], [4, 5]] : List (List Token))[i].length) 0 :=
  ⟨by decide, c2_batched_padding [[3], [4, 5]] (by decide)⟩

/-- C1: the image-token expansion of `preprocess` and
`preprocess_batch` maps a token sequence with `k` occurrences of the
placeholder id and expansion factor `N` to a sequence of length
`len(input) + k*(N-1)`, replaces every placeholder occurrence in
place by `N` copies of the placeholder id (the `flatMap` equation),
and preserves the relative order of all non-placeholder tokens. -/
theorem c1_image_token_expansion (pid N : Nat) (hN : 1 ≤ N) (l : List Token) :
    (expandImageTokens pid N l).length = l.length + l.count pid * (N - 1) ∧
    expandImageTokens pid N l =
      l.flatMap (fun t => if t = pid then List.replicate N pid else [t]) ∧
    (expandImageTokens pid N l).filter (fun t => t ≠ pid) =
      l.filter (fun t => t ≠ pid) ∧
    (expandImageTokens pid N l).count pid = l.count pid * N :=
  ⟨expandImageTokens_length pid N hN l, expandImageTokens_eq_bind pid N l,
   expandImageTokens_filter pid N l, expandImageTokens_count pid N l⟩

/-- Witness for C1 at `pid = 7`, `N = 3`, input `[1, 7, 2]`. -/
theorem c1_image_token_expansion_witness :
    1 ≤ 3 ∧
    ((expandImageTokens 7 3 [1, 7, 2]).length =
        [1, 7, 2].length + [1, 7, 2].count 7 * (3 - 1) ∧
     expandImageTokens 7 3 [1, 7, 2] =
        [1, 7, 2].flatMap (fun t => if t = 7 then List.replicate 3 7 else [t]) ∧
     (expandImageTokens 7 3 [1, 7, 2]).filter (fun t => t ≠ 7) =
        [1, 7, 2].filter (fun t => t ≠ 7) ∧
     (expandImageTokens 7 3 [1, 7, 2]).count 7 = [1, 7, 2].count 7 * 3) :=
  ⟨by decide, c1_image_token_expansion 7 3 (by decide) [1, 7, 2]⟩

/-- C3: construction maps each of the three accepted precision
strings to the corresponding dtype and then loads; for any other
precision string it fails with the invalid-configuration error (the
spec's `InvalidConfigError`) with the world untouched — `load_model`
is never invoked and no resource is allocated. -/
theorem c3_dtype_validation (w : World) :
    joyCaptionInit "float32" w = (Except.ok TorchDType.float32, load_model w) ∧
    joyCaptionInit "float16" w = (Except.ok TorchDType.float16, load_model w) ∧
    joyCaptionInit "bfloat16" w = (Except.ok TorchDType.bfloat16, load_model w) ∧
    ∀ s : String, s ≠ "float32" → s ≠ "float16" → s ≠ "bfloat16" →
      joyCaptionInit s w =
        (Except.error (XError.invalidConfig
          "dtype must be one of 'float32', 'float16', or 'bfloat16'"), w) := by
  refine ⟨rfl, rfl, rfl, ?_⟩
  intro s h1 h2 h3
  unfold joyCaptionInit dtype_map
  simp [h1, h2, h3]

/-- Witness for C3 at the world `⟨0, 0⟩`, precisions `"float16"` and
`"float64"`. -/
theorem c3_dtype_validation_witness :
    joyCaptionInit "float16" ⟨0, 0⟩ =
      (Except.ok TorchDType.float16, load_model ⟨0, 0⟩) ∧
    joyCaptionInit "float64" ⟨0, 0⟩ =
      (Except.error (XError.invalidConfig
        "dtype must be one of 'float32', 'float16', or 'bfloat16'"), ⟨0, 0⟩) :=
  ⟨(c3_dtype_validation ⟨0, 0⟩).2.1,
   (c3_dtype_validation ⟨0, 0⟩).2.2.2 "float64"
     (by decide) (by decide) (by decide)⟩

/-- C5: both `infer` and `infer_batch` default `max_new_tokens` to
300 when the caller does not supply it, forward a caller-supplied
value unchanged, and always call generation with `do_sample=True`,
`suppress_tokens=None` and `use_cache=True`. -/
theorem c5_generation_options :
    (∀ kw : GenerateKwargs, kw.maxNewTokens = none →
      (inferGenerateCall kw).maxNewTokens = some 300 ∧
      (inferBatchGenerateCall kw).maxNewTokens = some 300) ∧
    (∀ (kw : GenerateKwargs) (v : Nat), kw.maxNewTokens = some v →
      (inferGenerateCall kw).maxNewTokens = some v ∧
      (inferBatchGenerateCall kw).maxNewTokens = some v) ∧
    ∀ kw : GenerateKwargs,
      (inferGenerateCall kw).doSample = true ∧
      (inferGenerateCall kw).suppressTokens = none ∧
      (inferGenerateCall kw).useCache = true ∧
      (inferBatchGenerateCall kw).doSample = true ∧
      (inferBatchGenerateCall kw).suppressTokens = none ∧
      (inferBatchGenerateCall kw).useCache = true := by
  refine ⟨?_, ?_, ?_⟩
  · intro kw h
    constructor <;>
      simp [inferGenerateCall, inferBatchGenerateCall,
        applyDefaultMaxNewTokens, h]
  · intro kw v h
    constructor <;>
      simp [inferGenerateCall, inferBatchGenerateCall,
        applyDefaultMaxNewTokens, h]
  · intro kw
    refine ⟨rfl, rfl, rfl, rfl, rfl, rfl⟩

/-- Witness for C5 at `max_new_tokens` absent and at
`max_new_tokens = 5`. -/
theorem c5_generation_options_witness :
    (inferGenerateCall ⟨none⟩).maxNewTokens = some 300 ∧
    (inferBatchGenerateCall ⟨some 5⟩).maxNewTokens = some 5 :=
  ⟨(c5_generation_options.1 ⟨none⟩ rfl).1,
   (c5_generation_options.2.1 ⟨some 5⟩ 5 rfl).2⟩

/-- C7: applying the registration decorator inserts a registry entry
and returns the class itself unchanged; after registration resolving
the identifier yields the registered constructor, while resolving an
identifier no entry carries fails with `NotFoundError`. -/
theorem c7_registry_round_trip {C : Type} (identifier backendKind : String)
    (capability : ModelInputOutput) (cls : C) (reg : Registry C) :
    (register_model identifier backendKind capability cls reg).1 = cls ∧
    resolve (register_model identifier backendKind capability cls reg).2
      identifier = Except.ok cls ∧
    ∀ id2 : String, (∀ e ∈ reg, e.identifier ≠ id2) →
      resolve reg id2 = Except.error (XError.notFound id2) := by
  refine ⟨rfl, ?_, ?_⟩
  · unfold resolve register_model
    rw [List.find?_cons_of_pos _ (by simp)]
  · intro id2 h
    unfold resolve
    have hnone : reg.find? (fun e => e.identifier == id2) = none := by
      apply List.find?_eq_none.mpr
      intro e he
      simp [h e he]
    rw [hnone]

/-- Witness for C7 with the numeric "class" `42` registered under
`"m"` in an empty registry, and the unregistered identifier `"x"`. -/
theorem c7_registry_round_trip_witness :
    (register_model "m" "transformers" ModelInputOutput.imageTextToText 42
      ([] : Registry Nat)).1 = 42 ∧
    resolve (register_model "m" "transformers"
      ModelInputOutput.imageTextToText 42 ([] : Registry Nat)).2 "m" =
      Except.ok 42 ∧
    resolve ([] : Registry Nat) "x" = Except.error (XError.notFound "x") :=
  ⟨(c7_registry_round_trip "m" "transformers"
      ModelInputOutput.imageTextToText 42 []).1,
   (c7_registry_round_trip "m" "transformers"
      ModelInputOutput.imageTextToText 42 []).2.1,
   (c7_registry_round_trip "m" "transformers"
      ModelInputOutput.imageTextToText 42 []).2.2 "x"
     (fun e he => absurd he (List.not_mem_nil e))⟩

/-- C8: in the single-example path of `preprocess` the attention mask
has exactly the length of the token-id sequence and contains only
ones — no padding occurs. -/
theorem c8_single_mask_all_ones (pid N : Nat) (convoTokens : List Token) :
    (preprocessTokens pid N convoTokens).2.length =
      (preprocessTokens pid N convoTokens).1.length ∧
    ∀ x ∈ (preprocessTokens pid N convoTokens).2, x = 1 := by
  constructor
  · simp [preprocessTokens]
  · intro x hx
    exact List.eq_of_mem_replicate hx

/-- C4: on a non-empty batch, `infer_batch` trims every generated
row by one shared width `M` — the padded input width, i.e. the
maximum of the true per-example expanded prompt lengths (an upper
bound that some example attains) — not by each example's own
pre-padding prompt length. -/
theorem c4_shared_width_trim (render : Token → String)
    (encode : String → List Token) (pid N : Nat) (stats : Stats)
    (images prompts : List String) (rows : List (List Token))
    (h : images.zip prompts ≠ []) :
    ∃ M : Nat,
      (∀ pr ∈ images.zip prompts,
        (expandImageTokens pid N (encode pr.2)).length ≤ M) ∧
      (∃ pr ∈ images.zip prompts,
        (expandImageTokens pid N (encode pr.2)).length = M) ∧
      (runInferBatch render encode pid N (fun _ _ => Except.ok rows)
          stats images prompts).1 =
        Except.ok (rows.map (fun row =>
          pyStrip (decodeTokens render (row.drop M)))) := by
  have hmap :
      ((images.zip prompts).map
        (fun pr => expandImageTokens pid N (encode pr.2))).map List.length ≠ [] := by
    simpa using h
  obtain ⟨M, hM, hub, hmem⟩ := pythonMax_spec _ hmap
  refine ⟨M, ?_, ?_, ?_⟩
  · intro pr hpr
    exact hub _ (List.mem_map_of_mem _ (List.mem_map_of_mem _ hpr))
  · rw [List.map_map] at hmem
    obtain ⟨pr, hpr, hlen⟩ := List.mem_map.mp hmem
    exact ⟨pr, hpr, hlen⟩
  · rw [runInferBatch_eq_of_ok render encode pid N _ stats images prompts M
      rows hM rfl]
    rw [matrixWidth_map_padRow M _ (by simpa using h)]

/-- Witness for C4 on a one-pair batch with constant collaborators. -/
theorem c4_shared_width_trim_witness :
    (["a"].zip ["x"] ≠ []) ∧
    ∃ M : Nat,
      (∀ pr ∈ ["a"].zip ["x"],
        (expandImageTokens 5 2 ((fun _ : String => ([1, 2] : List Token)) pr.2)).length ≤ M) ∧
      (∃ pr ∈ ["a"].zip ["x"],
        (expandImageTokens 5 2 ((fun _ : String => ([1, 2] : List Token)) pr.2)).length = M) ∧
      (runInferBatch (fun _ => "") (fun _ => [1, 2]) 5 2
          (fun _ _ => Except.ok [[7, 7, 7]]) ⟨0⟩ ["a"] ["x"]).1 =
        Except.ok ([[7, 7, 7]].map (fun row =>
          pyStrip (decodeTokens (fun _ => "") (row.drop M)))) :=
  ⟨by decide,
   c4_shared_width_trim (fun _ => "") (fun _ => [1, 2]) 5 2 ⟨0⟩
     ["a"] ["x"] [[7, 7, 7]] (by decide)⟩

/-- C6: a completed `infer` call increments the inference count by
exactly 1 and a completed `infer_batch` call by exactly the batch
size; when preprocessing or generation raises, the error propagates
and the count is left untouched — the counter mutation happens only
after the generation-and-decode phase succeeds. -/
theorem c6_stats_update (render : Token → String) (stats : Stats) :
    (∀ (e : PyError) (generate : List Token → Except PyError (List Token)),
      runInfer render stats (Except.error e) generate =
        (Except.error e, stats)) ∧
    (∀ (inputIds : List Token)
       (generate : List Token → Except PyError (List Token)) (e : PyError),
      generate inputIds = Except.error e →
      runInfer render stats (Except.ok inputIds) generate =
        (Except.error e, stats)) ∧
    (∀ (inputIds : List Token)
       (generate : List Token → Except PyError (List Token))
       (out : List Token),
      generate inputIds = Except.ok out →
      (runInfer render stats (Except.ok inputIds) generate).2.inferenceCount =
        stats.inferenceCount + 1) ∧
    (∀ (encode : String → List Token) (pid N : Nat)
       (images prompts : List String) (e : PyError),
      (runInferBatch render encode pid N (fun _ _ => Except.error e)
        stats images prompts).2 = stats) ∧
    (∀ (encode : String → List Token) (pid N : Nat)
       (generate : List (List Token) → List (List Nat) →
         Except PyError (List (List Token)))
       (images prompts : List String),
      images.zip prompts = [] →
      runInferBatch render encode pid N generate stats images prompts =
        (Except.error (PyError.valueError "max() arg is an empty sequence"),
         stats)) ∧
    (∀ (encode : String → List Token) (pid N : Nat)
       (rows : List (List Token)) (images prompts : List String),
      images.length = prompts.length →
      (runInferBatch render encode pid N (fun _ _ => Except.ok rows)
        stats images prompts).2.inferenceCount =
        stats.inferenceCount + images.length) := by
  refine ⟨?_, ?_, ?_, ?_, ?_, ?_⟩
  · intro e generate
    rfl
  · intro inputIds generate e hgen
    simp [runInfer, hgen]
  · intro inputIds generate out hgen
    simp [runInfer, hgen, update_inference_count]
  · intro encode pid N images prompts e
    simp only [runInferBatch]
    cases hpb : padBatch (((images.zip prompts)).map
        (fun pr => expandImageTokens pid N (encode pr.2))) with
    | error e2 => rfl
    | ok pair => cases pair; rfl
  · intro encode pid N generate images prompts hz
    simp [runInferBatch, hz, padBatch, pythonMax]
  · intro encode pid N rows images prompts hlen
    by_cases hz : images.zip prompts = []
    · have hl0 : images.length = 0 := by
        have hzl := List.length_zip images prompts
        rw [hz] at hzl
        simp at hzl
        omega
      simp only [runInferBatch, hz]
      simp [padBatch, pythonMax, hl0]
    · have hmap :
          ((images.zip prompts).map
            (fun pr => expandImageTokens pid N (encode pr.2))).map
              List.length ≠ [] := by
        simpa using hz
      obtain ⟨M, hM, _, _⟩ := pythonMax_spec _ hmap
      rw [runInferBatch_eq_of_ok render encode pid N _ stats images prompts M
        rows hM rfl]
      have hzl : (images.zip prompts).length = images.length := by
        rw [List.length_zip, hlen, Nat.min_self]
      simp [update_inference_count, hzl]

/-- Witness for C6: a successful single call from count 0, a
failing preprocessing, and a successful one-pair batch. -/
theorem c6_stats_update_witness :
    (runInfer (fun _ => "") ⟨0⟩ (Except.ok [1])
      (fun _ => Except.ok [1, 2])).2.inferenceCount = 0 + 1 ∧
    runInfer (fun _ => "") ⟨0⟩
      (Except.error (PyError.valueError "cannot identify image file"))
      (fun _ => Except.ok []) =
      (Except.error (PyError.valueError "cannot identify image file"), ⟨0⟩) ∧
    (runInferBatch (fun _ => "") (fun _ => [1]) 5 2
      (fun _ _ => Except.ok [[9]]) ⟨0⟩ ["a"] ["x"]).2.inferenceCount = 0 + 1 :=
  ⟨(c6_stats_update (fun _ => "") ⟨0⟩).2.2.1 [1]
     (fun _ => Except.ok [1, 2]) [1, 2] rfl,
   (c6_stats_update (fun _ => "") ⟨0⟩).1
     (PyError.valueError "cannot identify image file") (fun _ => Except.ok []),
   (c6_stats_update (fun _ => "") ⟨0⟩).2.2.2.2.2 (fun _ => [1]) 5 2 [[9]]
     ["a"] ["x"] rfl⟩

/-- C9: when generation produces zero new tokens (the generated
sequence equals the prompt), trimming by the prompt length leaves no
tokens, and decoding plus stripping yields the empty string. -/
theorem c9_zero_new_tokens (render : Token → String) (stats : Stats)
    (inputIds : List Token)
    (generate : List Token → Except PyError (List Token))
    (hgen : generate inputIds = Except.ok inputIds) :
    (runInfer render stats (Except.ok inputIds) generate).1 =
      Except.ok "" := by
  simp [runInfer, hgen, List.drop_length, decodeTokens]
  rfl

/-- Witness for C9 with the identity generation on the prompt
`[1, 2]`. -/
theorem c9_zero_new_tokens_witness :
    (runInfer (fun _ => "") ⟨0⟩ (Except.ok [1, 2]) Except.ok).1 =
      Except.ok "" :=
  c9_zero_new_tokens (fun _ => "") ⟨0⟩ [1, 2] Except.ok rfl

/-- C10 counterexample: with a non-empty image list and an empty
prompt list (unequal lengths, `min = 0`) the claim's "no error is
raised" fails — `preprocess_batch` reaches Python's `max` on an
empty sequence, which raises `ValueError`, and `infer_batch`
propagates it with the stats untouched. -/
theorem c10_unequal_lengths_counterexample :
    runInferBatch (fun _ => "") (fun _ => [1]) 5 2
        (fun _ _ => Except.ok []) ⟨0⟩ ["img.jpg"] [] =
      (Except.error (PyError.valueError "max() arg is an empty sequence"),
       ⟨0⟩) := by
  rfl

/-- C10 (amended): when the shorter of the two lists is non-empty,
`infer_batch` raises no error: the pairing truncates to the first
`min(len(images), len(prompts))` pairs, and the caption list and the
inference-count increment both have size `min`. -/
theorem c10_min_truncation (render : Token → String)
    (encode : String → List Token) (pid N : Nat)
    (genRow : List Token → List Token) (stats : Stats)
    (images prompts : List String) (h : images.zip prompts ≠ []) :
    ∃ captions : List String,
      runInferBatch render encode pid N
          (fun padded _ => Except.ok (padded.map genRow))
          stats images prompts =
        (Except.ok captions,
         update_inference_count stats (min images.length prompts.length)) ∧
      captions.length = min images.length prompts.length := by
  have hmap :
      ((images.zip prompts).map
        (fun pr => expandImageTokens pid N (encode pr.2))).map
          List.length ≠ [] := by
    simpa using h
  obtain ⟨M, hM, _, _⟩ := pythonMax_spec _ hmap
  rw [runInferBatch_eq_of_ok render encode pid N _ stats images prompts M
    ((((images.zip prompts).map
      (fun pr => expandImageTokens pid N (encode pr.2))).map
        (padRow M)).map genRow) hM rfl]
  have hzl : (images.zip prompts).length = min images.length prompts.length :=
    List.length_zip images prompts
  rw [hzl]
  exact ⟨_, rfl, by simp [List.length_zip]⟩

/-- Witness for the amended C10 on lists of lengths 3 and 2. -/
theorem c10_min_truncation_witness :
    (["a", "b", "c"].zip ["x", "y"] ≠ []) ∧
    ∃ captions : List String,
      runInferBatch (fun _ => "") (fun _ => [1]) 5 2
          (fun padded _ => Except.ok (padded.map id)) ⟨0⟩
          ["a", "b", "c"] ["x", "y"] =
        (Except.ok captions,
         update_inference_count ⟨0⟩
           (min ["a", "b", "c"].length ["x", "y"].length)) ∧
      captions.length = min ["a", "b", "c"].length ["x", "y"].length :=
  ⟨by decide,
   c10_min_truncation (fun _ => "") (fun _ => [1]) 5 2 id ⟨0⟩
     ["a", "b", "c"] ["x", "y"] (by decide)⟩

end XInfer
